import Mathlib

/-
Verification of the GO Transit dashboard's fetch/cache/refresh logic.

The dashboard (src/app.py, src/pages/1_Analytics.py, src/pages/2_Vehicle_Tracker.py)
memoizes upstream API responses with a per-function response cache keyed by the request
URL with a 60-second time-to-live, clears every cached entry either on the manual
refresh button or when the auto-refresh block sees more than 60 seconds elapsed, and
renders page sections from the (possibly absent) fetched values.

This file gives a shallow embedding of that logic and proves the spec's testable
properties against it.  Time is modelled in whole seconds as a natural number; the
cache is an association list from URL keys to entries, with insertion by consing (the
most recent binding shadows older ones, exactly as a dict overwrite does for lookup).
-/

namespace GoTransit

/-! ## HTTP layer (src/app.py lines 238-246 and the two page variants)

`fetch_data` in `app.py` runs `requests.get(url, timeout=10)`, then
`raise_for_status()` (which raises for any status of 400 or above), then decodes the
JSON body; any exception yields `None`.  The page variants
(`1_Analytics.py` lines 130-135, `2_Vehicle_Tracker.py` lines 144-149) run
`requests.get(url, timeout=10).json()` with a bare `except` returning `None`: they
never inspect the HTTP status. -/

/-- A request as issued by the dashboard: target URL and the timeout passed to the
transport. -/
structure HttpRequest where
  url : String
  timeoutSeconds : Nat
deriving Repr, DecidableEq

/-- A response that reached the client: its status code and its body as decoded JSON
(`none` when the body is not valid JSON, in which case `.json()` raises). -/
structure HttpResponse (β : Type) where
  status : Nat
  jsonBody : Option β
deriving Repr, DecidableEq

/-- Outcome of the transport itself: a response, or a connection error / timeout
(which `requests.get` raises). -/
inductive TransportResult (β : Type) where
  | ok (resp : HttpResponse β)
  | netError
deriving Repr, DecidableEq

/-- Every call site builds its request with the literal `timeout=10`. -/
def goRequest (url : String) : HttpRequest := ⟨url, 10⟩

/-- Body of `fetch_data` in `src/app.py`: transport error yields `None`;
`raise_for_status` turns any status of 400 or above into an exception, also caught,
yielding `None`; otherwise the decoded JSON body is returned (`None` when decoding
raised). -/
def fetch_data_app {β : Type} (http : HttpRequest → TransportResult β) (url : String) :
    Option β :=
  match http (goRequest url) with
  | .netError => none
  | .ok resp => if 400 ≤ resp.status then none else resp.jsonBody

/-- Body of `fetch_data` in the Analytics and Vehicle Tracker pages: the status is
never checked; only a transport or JSON-decoding exception yields `None`. -/
def fetch_data_page {β : Type} (http : HttpRequest → TransportResult β) (url : String) :
    Option β :=
  match http (goRequest url) with
  | .netError => none
  | .ok resp => resp.jsonBody

/-! ## The response cache (`st.cache_data(ttl=60)` memoization as used at every site)

The decorator memoizes the wrapped function per argument: on a hit younger than the
ttl the stored value (whatever the function returned, including `None`) is given back
without running the body; otherwise the body runs once and its result is stored with
the current time.  `st.cache_data.clear()` drops every stored entry. -/

/-- One cached result: the stored return value and the time it was stored. -/
structure Entry (α : Type) where
  value : α
  fetchedAt : Nat
deriving Repr, DecidableEq

/-- The cache: an association list from request keys (URLs) to entries.  A fresh
binding is consed on the front, so lookup sees the newest binding, like a dict
overwrite. -/
abbrev Cache (α : Type) := List (String × Entry α)

/-- First (newest) binding for a key, if any. -/
def lookupEntry {α : Type} : Cache α → String → Option (Entry α)
  | [], _ => none
  | (k₁, e) :: rest, k => if k₁ = k then some e else lookupEntry rest k

/-- One memoized call: on a hit younger than `ttl` return the stored value, the cache
unchanged, and a fetch count of `0`; otherwise run `f` once, store its result at
`now`, and return it with a fetch count of `1`. -/
def cacheGet {α : Type} (c : Cache α) (k : String) (f : Unit → α) (ttl now : Nat) :
    α × Cache α × Nat :=
  match lookupEntry c k with
  | some e =>
      if now - e.fetchedAt < ttl then (e.value, c, 0)
      else (f (), (k, ⟨f (), now⟩) :: c, 1)
  | none => (f (), (k, ⟨f (), now⟩) :: c, 1)

/-- `st.cache_data.clear()`: every entry is dropped. -/
def invalidateAll {α : Type} (_c : Cache α) : Cache α := []

/-- A sequence of memoized calls for one key at the given times, threading the cache
and summing the fetch counts. -/
def runGets {α : Type} (k : String) (f : Unit → α) (ttl : Nat) :
    Cache α → List Nat → Cache α × Nat
  | c, [] => (c, 0)
  | c, t :: ts =>
      let r := cacheGet c k f ttl t
      let rest := runGets k f ttl r.2.1 ts
      (rest.1, r.2.2 + rest.2)

/-- A run of calls all landing on a fresh entry performs no fetch and leaves the cache
untouched. -/
theorem runGets_fresh {α : Type} (k : String) (f : Unit → α) (ttl : Nat)
    (e : Entry α) (times : List Nat) :
    ∀ c : Cache α, lookupEntry c k = some e →
      (∀ u ∈ times, u - e.fetchedAt < ttl) →
      runGets k f ttl c times = (c, 0) := by
  induction times with
  | nil => intro c _ _; rfl
  | cons t ts ih =>
      intro c hl hw
      have hfresh : t - e.fetchedAt < ttl := hw t (List.mem_cons_self t ts)
      have h1 : cacheGet c k f ttl t = (e.value, c, 0) := by
        simp [cacheGet, hl, hfresh]
      have h2 := ih c hl (fun u hu => hw u (List.mem_cons_of_mem t hu))
      simp [runGets, h1, h2]

/-- Claim C1: after a successful `get` stored the value `v` at time `t0`, a `get` at
any time `t1` with `t1 - t0 < ttl` does not invoke the (arbitrary) fetch function,
returns exactly the stored value, and leaves the cache unchanged. -/
theorem freshness_invariant {α : Type} (c c' : Cache (Option α)) (k : String)
    (f f' : Unit → Option α) (ttl t0 t1 : Nat) (v : α)
    (hmiss : lookupEntry c k = none) (hf : f () = some v)
    (hstore : c' = (cacheGet c k f ttl t0).2.1)
    (hfresh : t1 - t0 < ttl) :
    lookupEntry c' k = some ⟨some v, t0⟩ ∧
    cacheGet c' k f' ttl t1 = (some v, c', 0) := by
  have hc' : c' = (k, (⟨some v, t0⟩ : Entry (Option α))) :: c := by
    simp [cacheGet, hmiss, hf] at hstore
    exact hstore
  subst hc'
  have hl : lookupEntry ((k, (⟨some v, t0⟩ : Entry (Option α))) :: c) k =
      some ⟨some v, t0⟩ := by simp [lookupEntry]
  refine ⟨hl, ?_⟩
  simp [cacheGet, hl, hfresh]

/-- Claim C1 at concrete inputs: a fetch of `92` at `t0 = 0` with `ttl = 60`, then a
`get` at `t1 = 30` with a fetch function that would fail, returns `92` without
fetching. -/
theorem freshness_invariant_witness :
    lookupEntry ([("k", (⟨some 92, 0⟩ : Entry (Option Nat)))]) "k" =
      some ⟨some 92, 0⟩ ∧
    cacheGet ([("k", (⟨some 92, 0⟩ : Entry (Option Nat)))]) "k" (fun _ => none) 60 30 =
      (some 92, [("k", ⟨some 92, 0⟩)], 0) :=
  freshness_invariant [] [("k", ⟨some 92, 0⟩)] "k" (fun _ => some 92) (fun _ => none)
    60 0 30 92 rfl rfl (by decide) (by decide)

/-- Claim C2: with an entry whose age has reached the ttl, a `get` at `t1` invokes the
fetch function exactly once; and every further `get` at a time within the ttl window
that opened at `t1` performs no fetch at all and leaves the cache as it was right
after the refetch, so the window sees no more than this one fetch. -/
theorem expiry_triggers_refetch {α : Type} (c : Cache (Option α)) (k : String)
    (f f' : Unit → Option α) (ttl t1 : Nat) (e : Entry (Option α)) (times : List Nat)
    (hl : lookupEntry c k = some e) (hstale : ¬ t1 - e.fetchedAt < ttl)
    (hwin : ∀ u ∈ times, u - t1 < ttl) :
    (cacheGet c k f ttl t1).2.2 = 1 ∧
    runGets k f' ttl (cacheGet c k f ttl t1).2.1 times =
      ((cacheGet c k f ttl t1).2.1, 0) := by
  have h1 : cacheGet c k f ttl t1 = (f (), (k, ⟨f (), t1⟩) :: c, 1) := by
    simp [cacheGet, hl, hstale]
  refine ⟨by simp [h1], ?_⟩
  rw [h1]
  exact runGets_fresh k f' ttl ⟨f (), t1⟩ times _ (by simp [lookupEntry]) hwin

/-- Claim C2 at concrete inputs: entry fetched at `t0 = 0` with `ttl = 60`, a `get`
at `t1 = 60` fetches exactly once, and three further calls at `60`, `90` and `119`
fetch nothing. -/
theorem expiry_triggers_refetch_witness :
    (cacheGet ([("k", (⟨some 92, 0⟩ : Entry (Option Nat)))]) "k" (fun _ => some 95)
        60 60).2.2 = 1 ∧
    runGets "k" (fun _ => some 97) 60
      (cacheGet ([("k", (⟨some 92, 0⟩ : Entry (Option Nat)))]) "k" (fun _ => some 95)
        60 60).2.1 [60, 90, 119] =
      ((cacheGet ([("k", (⟨some 92, 0⟩ : Entry (Option Nat)))]) "k" (fun _ => some 95)
        60 60).2.1, 0) :=
  expiry_triggers_refetch [("k", ⟨some 92, 0⟩)] "k" (fun _ => some 95) (fun _ => some 97)
    60 60 ⟨some 92, 0⟩ [60, 90, 119] rfl (by decide) (by decide)

/-- Claim C3 fails on the code at a concrete input: the cache holds `92` fetched at
time `0`; at time `60` (`ttl = 60`, so the entry is stale) the fetch fails.  The
wrapped body swallows the exception and returns `None`, and the memoization stores
that `None` at time `60`: the call yields the absent value instead of a typed error,
the newest binding for the key is now `(None, 60)` — the prior value `92` is no
longer what lookup retrieves and the stored timestamp did move — so the cache was
mutated by a failed fetch. -/
theorem failure_isolation_counterexample :
    cacheGet ([("k", (⟨some 92, 0⟩ : Entry (Option Nat)))]) "k" (fun _ => none) 60 60 =
      (none, [("k", ⟨none, 60⟩), ("k", ⟨some 92, 0⟩)], 1) ∧
    lookupEntry
      (cacheGet ([("k", (⟨some 92, 0⟩ : Entry (Option Nat)))]) "k" (fun _ => none)
        60 60).2.1 "k" = some ⟨none, 60⟩ ∧
    some (⟨none, 60⟩ : Entry (Option Nat)) ≠ some ⟨some 92, 0⟩ := by
  refine ⟨by decide, by decide, by decide⟩

/-- Claim C3 as amended: when the fetch fails on a re-fetch attempt (the body returns
the absent value after catching the exception), the call returns `None` rather than a
typed error, and the cache IS mutated — the absent value is stored with `fetchedAt`
updated to the time of the failed attempt, shadowing the prior value for lookup. -/
theorem failure_caches_none {α : Type} (c : Cache (Option α)) (k : String)
    (f : Unit → Option α) (ttl now : Nat) (e : Entry (Option α))
    (hl : lookupEntry c k = some e) (hstale : ¬ now - e.fetchedAt < ttl)
    (hf : f () = none) :
    cacheGet c k f ttl now = (none, (k, ⟨none, now⟩) :: c, 1) ∧
    lookupEntry (cacheGet c k f ttl now).2.1 k = some ⟨none, now⟩ := by
  have h1 : cacheGet c k f ttl now = (none, (k, ⟨none, now⟩) :: c, 1) := by
    simp [cacheGet, hl, hstale, hf]
  exact ⟨h1, by rw [h1]; simp [lookupEntry]⟩

/-- Claim C3 (amended) at concrete inputs: prior value `92` at time `0`, failed
re-fetch at time `60` with `ttl = 60`. -/
theorem failure_caches_none_witness :
    cacheGet ([("p", (⟨some 92, 0⟩ : Entry (Option Nat)))]) "p" (fun _ => none) 60 60 =
      (none, [("p", ⟨none, 60⟩), ("p", ⟨some 92, 0⟩)], 1) ∧
    lookupEntry
      (cacheGet ([("p", (⟨some 92, 0⟩ : Entry (Option Nat)))]) "p" (fun _ => none)
        60 60).2.1 "p" = some ⟨none, 60⟩ :=
  failure_caches_none [("p", ⟨some 92, 0⟩)] "p" (fun _ => none) 60 60 ⟨some 92, 0⟩
    rfl (by decide) rfl

/-- Claim C5: after the manual refresh clears every entry, a `get` for any key with
any fetch function at any time invokes the fetch function (count `1`) no matter what
the cache held before — in particular however recently the key was fetched. -/
theorem manual_invalidation {α : Type} (c : Cache α) (k : String) (f : Unit → α)
    (ttl now : Nat) :
    cacheGet (invalidateAll c) k f ttl now = (f (), [(k, ⟨f (), now⟩)], 1) := by
  simp [invalidateAll, cacheGet, lookupEntry]

/-! ## The auto-refresh block (src/app.py lines 856-863, src/app_old.py lines 217-223)

```
if auto_refresh:
    if last_refresh not in session_state: session_state.last_refresh = time.time()
    if time.time() - session_state.last_refresh > 60:
        session_state.last_refresh = time.time()
        st.cache_data.clear()
        st.rerun()
```

Executed once per render pass; the rerun it triggers is the signal that a refresh
occurred.  The interval `60` and the strict comparison are literal in the source. -/

/-- What one execution of the auto-refresh block signals to its caller. -/
inductive TickResult where
  | RefreshOccurred
  | NoOp
deriving Repr, DecidableEq

/-- Per-session state seen by the block: the `last_refresh` slot of
`st.session_state` (absent before the first auto-refresh render) and the response
cache. -/
structure SessionState (α : Type) where
  lastRefreshAt : Option Nat
  cache : Cache α
deriving Repr, DecidableEq

/-- One execution of the auto-refresh block at time `now`.  With the toggle off it
touches nothing.  With it on, an absent `last_refresh` is first initialized to `now`;
then, exactly when more than 60 seconds have elapsed, the slot is reset to `now`, the
whole cache is cleared and a rerun is signalled. -/
def tick {α : Type} (autoRefresh : Bool) (s : SessionState α) (now : Nat) :
    TickResult × SessionState α :=
  if autoRefresh then
    let l := s.lastRefreshAt.getD now
    if 60 < now - l then (.RefreshOccurred, ⟨some now, invalidateAll s.cache⟩)
    else (.NoOp, ⟨some l, s.cache⟩)
  else (.NoOp, s)

/-- A sequence of render passes executing the block at the given times, threading the
session state and counting the refreshes that occurred. -/
def runTicks {α : Type} (autoRefresh : Bool) :
    SessionState α → List Nat → SessionState α × Nat
  | s, [] => (s, 0)
  | s, t :: ts =>
      let r := tick autoRefresh s t
      let rest := runTicks autoRefresh r.2 ts
      (rest.1, (if r.1 = TickResult.RefreshOccurred then 1 else 0) + rest.2)

/-- Claim C4: with auto-refresh on and the last refresh recorded at `t`, any number
of executions of the block at times within 60 seconds of `t` signal no refresh and
leave the state (slot and cache) untouched, while an execution at a time more than 60
seconds past `t` signals exactly one refresh, clears every cache entry and resets the
slot to that time. -/
theorem periodic_tick {α : Type} (t : Nat) (c : Cache α) (times : List Nat)
    (now₁ : Nat) (hwin : ∀ u ∈ times, u - t ≤ 60) (hdue : 60 < now₁ - t) :
    runTicks true (⟨some t, c⟩ : SessionState α) times = (⟨some t, c⟩, 0) ∧
    tick true (⟨some t, c⟩ : SessionState α) now₁ =
      (.RefreshOccurred, ⟨some now₁, []⟩) := by
  constructor
  · induction times with
    | nil => rfl
    | cons u us ih =>
        have hu : ¬ 60 < u - t := by
          exact Nat.not_lt.mpr (hwin u (List.mem_cons_self u us))
        have h1 : tick true (⟨some t, c⟩ : SessionState α) u =
            (.NoOp, ⟨some t, c⟩) := by
          simp [tick, hu]
        have h2 := ih (fun u hu => hwin u (List.mem_cons_of_mem _ hu))
        simp [runTicks, h1, h2]
  · simp [tick, hdue, invalidateAll]

/-- Claim C4 at concrete inputs: last refresh at `t = 0`, repeated render passes at
`10`, `30`, `60` and `60` are all no-ops, and a pass at `61` refreshes, clearing the
cache and setting the slot to `61`. -/
theorem periodic_tick_witness :
    runTicks true
      (⟨some 0, [("k", (⟨some 92, 0⟩ : Entry (Option Nat)))]⟩ :
        SessionState (Option Nat)) [10, 30, 60, 60] =
      (⟨some 0, [("k", ⟨some 92, 0⟩)]⟩, 0) ∧
    tick true
      (⟨some 0, [("k", (⟨some 92, 0⟩ : Entry (Option Nat)))]⟩ :
        SessionState (Option Nat)) 61 =
      (.RefreshOccurred, ⟨some 61, []⟩) :=
  periodic_tick 0 [("k", ⟨some 92, 0⟩)] [10, 30, 60, 60] 61 (by decide) (by decide)

/-- Claim C8: with the auto-refresh toggle off, the block is a no-op signalling no
refresh at every time, leaving the session state — cache included — exactly as it
was, over any single pass and over any sequence of passes. -/
theorem disabled_auto_refresh {α : Type} (s : SessionState α) (now : Nat)
    (times : List Nat) :
    tick false s now = (.NoOp, s) ∧ runTicks false s times = (s, 0) := by
  refine ⟨by simp [tick], ?_⟩
  induction times with
  | nil => rfl
  | cons u us ih => simp [runTicks, tick, ih]

/-- Claim C7 fails on the code at a concrete input: the Vehicle Tracker and Analytics
variants of `fetch_data` never run `raise_for_status`, so an HTTP 404 whose body
decodes as JSON is handed back as a successful value (here `7`), while the `app.py`
variant on the same response returns the absent value. -/
theorem fetch_non2xx_counterexample :
    fetch_data_page
        (fun _ => TransportResult.ok (⟨404, some 7⟩ : HttpResponse Nat)) "u" =
      some 7 ∧
    fetch_data_app
        (fun _ => TransportResult.ok (⟨404, some 7⟩ : HttpResponse Nat)) "u" =
      none := by
  refine ⟨rfl, rfl⟩

/-- Claim C7 as amended: every variant issues its request with a 10-second timeout
and turns a transport error into the absent value; the `app.py` variant additionally
treats any status of 400 or above (`raise_for_status`) as a failure, but the page
variants return the decoded body whatever the status is, so there a non-2xx body can
come back as a successful value. -/
theorem fetch_failure_handling {β : Type} (http httpErr : HttpRequest → TransportResult β)
    (url : String) (resp : HttpResponse β)
    (hhttp : http (goRequest url) = .ok resp) (hbad : 400 ≤ resp.status)
    (herr : httpErr (goRequest url) = .netError) :
    (goRequest url).timeoutSeconds = 10 ∧
    fetch_data_app http url = none ∧
    fetch_data_page http url = resp.jsonBody ∧
    fetch_data_app httpErr url = none ∧
    fetch_data_page httpErr url = none := by
  refine ⟨rfl, ?_, ?_, ?_, ?_⟩
  · simp [fetch_data_app, hhttp, hbad]
  · simp [fetch_data_page, hhttp]
  · simp [fetch_data_app, herr]
  · simp [fetch_data_page, herr]

/-- Claim C7 (amended) at concrete inputs: a 500 response with JSON body `3` and a
transport failure. -/
theorem fetch_failure_handling_witness :
    (goRequest "u").timeoutSeconds = 10 ∧
    fetch_data_app
        (fun _ => TransportResult.ok (⟨500, some 3⟩ : HttpResponse Nat)) "u" = none ∧
    fetch_data_page
        (fun _ => TransportResult.ok (⟨500, some 3⟩ : HttpResponse Nat)) "u" =
      some 3 ∧
    fetch_data_app (fun _ => (TransportResult.netError : TransportResult Nat)) "u" =
      none ∧
    fetch_data_page (fun _ => (TransportResult.netError : TransportResult Nat)) "u" =
      none :=
  fetch_failure_handling (fun _ => TransportResult.ok ⟨500, some 3⟩)
    (fun _ => TransportResult.netError) "u" ⟨500, some 3⟩ rfl (by decide) rfl

/-! ## Vehicle records and the location filter
(src/app.py lines 731-732, src/pages/2_Vehicle_Tracker.py line 253)

`route_vehicles = df_vehicles[df_vehicles[RouteCode] == selected_route]` followed by
`route_vehicles_with_loc = route_vehicles[(Latitude != 0) & (Longitude != 0)]`; the
map and the displayed active-vehicle count both come from the second frame.
Coordinates are modelled as rationals — the comparison in the code is exact equality
with zero, which rationals reproduce faithfully. -/

/-- One row of the vehicles frame, with the fields the filters touch. -/
structure Vehicle where
  routeCode : String
  lat : ℚ
  lon : ℚ
  status : String
  isInMotion : Bool
deriving Repr, DecidableEq

/-- The `(Latitude != 0) & (Longitude != 0)` row filter. -/
def withLocation (vs : List Vehicle) : List Vehicle :=
  vs.filter fun v => decide (v.lat ≠ 0) && decide (v.lon ≠ 0)

/-- The `RouteCode == selected_route` row filter. -/
def routeVehicles (vs : List Vehicle) (route : String) : List Vehicle :=
  vs.filter fun v => v.routeCode == route

/-- `route_vehicles_with_loc`: route filter then location filter. -/
def routeVehiclesWithLoc (vs : List Vehicle) (route : String) : List Vehicle :=
  withLocation (routeVehicles vs route)

/-- The vehicle count the route-tracking card displays:
`len(route_vehicles_with_loc)`. -/
def activeVehicleCount (vs : List Vehicle) (route : String) : Nat :=
  (routeVehiclesWithLoc vs route).length

/-- Claim C10: a row survives into the mapped set `route_vehicles_with_loc` exactly
when it is a row of the frame, matches the selected route, and has both coordinates
nonzero — so any row with a zero latitude or longitude is dropped from the map even
when it matches the route filter, and every matching row with both coordinates
nonzero is kept; the displayed active-vehicle count counts exactly those surviving
rows. -/
theorem zero_coordinate_filtering (vs : List Vehicle) (route : String) (v : Vehicle) :
    (v ∈ routeVehiclesWithLoc vs route ↔
      v ∈ vs ∧ v.routeCode = route ∧ v.lat ≠ 0 ∧ v.lon ≠ 0) ∧
    activeVehicleCount vs route =
      vs.countP (fun u =>
        decide (u.lat ≠ 0) && decide (u.lon ≠ 0) && (u.routeCode == route)) := by
  constructor
  · simp only [routeVehiclesWithLoc, withLocation, routeVehicles, List.mem_filter,
      Bool.and_eq_true, decide_eq_true_eq, beq_iff_eq]
    tauto
  · simp only [activeVehicleCount, routeVehiclesWithLoc, withLocation, routeVehicles,
      List.filter_filter]
    exact (List.countP_eq_length_filter _ vs).symm

/-! ## Render passes and failure handling (claim C6)

The top-level section structure of the two relevant scripts, as run top to bottom on
a render pass.  User-selected filters are taken at their defaults (everything passes)
and chart internals are collapsed into one widget per section — the claim is about
which sections render when a fetch fails, not about their contents.

`src/pages/2_Vehicle_Tracker.py` lines 203-207: after the header and the sidebar,
a falsy vehicles response (fetch failure, or an empty or missing `vehicles` array)
runs `st.error(...)` followed by `st.stop()`, which halts the script — nothing after
that point renders.

`src/app.py` lines 295-300: a falsy stats response shows
`st.warning(...)` and leaves `stats_dict` empty, which merely skips the stats
sections; the later sections (each guarded by its own fetch) and the footer still
render. -/

/-- A widget or page section, in document order. -/
inductive Widget where
  | sidebar
  | pageHeader
  | errorBox (msg : String)
  | warningBox (msg : String)
  | statsMetrics
  | liveStatusCharts
  | routeTrackingSection
  | summaryMetrics
  | vehicleMap
  | fleetStatsCharts
  | vehicleTable
  | pageFooter
deriving Repr, DecidableEq

/-- The Vehicle Tracker render pass, as a function of the (possibly absent) decoded
vehicles array and the map toggle.  `st.stop()` on the falsy-response branch means
the emitted widget list ends at the error box. -/
def vehicleTrackerPage (fetched : Option (List Vehicle)) (showMap : Bool) :
    List Widget :=
  [Widget.pageHeader, Widget.sidebar] ++
  match fetched with
  | none => [Widget.errorBox "Unable to fetch vehicle data. Please try again."]
  | some vs =>
      if vs.isEmpty then
        [Widget.errorBox "Unable to fetch vehicle data. Please try again."]
      else
        [Widget.summaryMetrics] ++
        (if showMap && !(withLocation vs).isEmpty then [Widget.vehicleMap] else []) ++
        [Widget.fleetStatsCharts, Widget.vehicleTable, Widget.pageFooter]

/-- The home page (`src/app.py`) render pass, as a function of the decoded stats and
vehicles responses.  A falsy stats response yields a warning and skips only the
stats-driven sections; a falsy vehicles response yields a warning in place of the
route-tracking section; the footer always renders. -/
def homePage (stats : Option (List (String × Nat))) (vehicles : Option (List Vehicle)) :
    List Widget :=
  [Widget.sidebar, Widget.pageHeader] ++
  (match stats with
   | some l =>
       if l.isEmpty then [Widget.warningBox "Unable to load GO Transit statistics"]
       else [Widget.statsMetrics]
   | none => [Widget.warningBox "Unable to load GO Transit statistics"]) ++
  (match stats with
   | some l => if l.isEmpty then [] else [Widget.liveStatusCharts]
   | none => []) ++
  (match vehicles with
   | some vs =>
       if vs.isEmpty then
         [Widget.warningBox "Unable to load vehicle data for route tracking."]
       else [Widget.routeTrackingSection]
   | none => [Widget.warningBox "Unable to load vehicle data for route tracking."]) ++
  [Widget.pageFooter]

/-- Claim C6 fails on the code at a concrete input: on the Vehicle Tracker page a
failed vehicles fetch renders only the header, the sidebar and the error box —
`st.stop()` aborts the rest of the render pass, so the table, charts and footer
sections do not continue rendering. -/
theorem render_abort_counterexample :
    vehicleTrackerPage none true =
      [Widget.pageHeader, Widget.sidebar,
       Widget.errorBox "Unable to fetch vehicle data. Please try again."] ∧
    Widget.pageFooter ∉ vehicleTrackerPage none true ∧
    Widget.vehicleTable ∉ vehicleTrackerPage none true := by
  refine ⟨rfl, by decide, by decide⟩

/-- Claim C6 as amended: failures surface as an absent value the callers inspect, and
on the home page the isolation holds — a failed stats fetch renders a warning while
the route-tracking section and the footer still render — but on the Vehicle Tracker
page a failed vehicles fetch displays an error and stops the script, so no section
after it renders. -/
theorem partial_failure_isolation (vs : List Vehicle) (showMap : Bool)
    (hne : vs ≠ []) :
    Widget.warningBox "Unable to load GO Transit statistics" ∈
      homePage none (some vs) ∧
    Widget.routeTrackingSection ∈ homePage none (some vs) ∧
    Widget.pageFooter ∈ homePage none (some vs) ∧
    vehicleTrackerPage none showMap =
      [Widget.pageHeader, Widget.sidebar,
       Widget.errorBox "Unable to fetch vehicle data. Please try again."] := by
  have hvs : vs.isEmpty = false := by
    cases vs with
    | nil => exact absurd rfl hne
    | cons a as => rfl
  refine ⟨?_, ?_, ?_, rfl⟩ <;> simp [homePage, hvs]

/-- Claim C6 (amended) at concrete inputs: one vehicle on route LW. -/
theorem partial_failure_isolation_witness :
    Widget.warningBox "Unable to load GO Transit statistics" ∈
      homePage none (some [⟨"LW", 43, -79, "On Time", true⟩]) ∧
    Widget.routeTrackingSection ∈
      homePage none (some [⟨"LW", 43, -79, "On Time", true⟩]) ∧
    Widget.pageFooter ∈ homePage none (some [⟨"LW", 43, -79, "On Time", true⟩]) ∧
    vehicleTrackerPage none true =
      [Widget.pageHeader, Widget.sidebar,
       Widget.errorBox "Unable to fetch vehicle data. Please try again."] :=
  partial_failure_isolation [⟨"LW", 43, -79, "On Time", true⟩] true (by decide)

/-! ## Station lookup table (src/route_data.py lines 55-83 and 89-91)

`GO_STATIONS` is a Python dict literal.  We keep it as the list of its bindings in
source order; a Python dict literal evaluates the bindings in order and a repeated
key overwrites the earlier value, so lookup is last-binding-wins —
`dictLast` below.  `get_station_name` is `GO_STATIONS.get(str(code), code)`. -/

/-- The bindings of the `GO_STATIONS` dict literal, in source order, including the
repeated keys. -/
def GO_STATIONS : List (String × String) := [
  ("UN", "Union Station"), ("AL", "Aldershot GO"), ("BR", "Bramalea GO"),
  ("BU", "Burlington GO"), ("CL", "Clarkson GO"), ("ER", "Erindale GO"),
  ("EX", "Exhibition GO"), ("GU", "Guildwood GO"), ("KE", "Kennedy GO"),
  ("LI", "Liberty Village GO"), ("LO", "Long Branch GO"), ("MI", "Mimico GO"),
  ("OA", "Oakville GO"), ("PO", "Port Credit GO"), ("RO", "Rouge Hill GO"),
  ("SC", "Scarborough GO"), ("WE", "West Harbour GO"), ("AG", "Agincourt GO"),
  ("MI", "Milliken GO"), ("SC", "Scarborough GO"), ("UN", "Unionville GO"),
  ("CE", "Centennial GO"), ("MA", "Malton GO"), ("BR", "Bramalea GO"),
  ("MT", "Mount Pleasant GO"), ("DA", "Danforth GO"), ("GE", "Gerrard GO")]

/-- Lookup in a list of dict-literal bindings: the LAST binding for the key wins,
as a repeated key in a Python dict literal overwrites the earlier value. -/
def dictLast : List (String × String) → String → Option String
  | [], _ => none
  | (k₁, v) :: rest, k =>
      match dictLast rest k with
      | some w => some w
      | none => if k₁ = k then some v else none

/-- `get_station_name`: `GO_STATIONS.get(code, code)`. -/
def get_station_name (code : String) : String :=
  (dictLast GO_STATIONS code).getD code

/-- A key bound nowhere in the literal looks up to nothing. -/
theorem dictLast_eq_none (bs : List (String × String)) (k : String)
    (h : k ∉ bs.map Prod.fst) : dictLast bs k = none := by
  induction bs with
  | nil => rfl
  | cons p rest ih =>
      have hk : p.1 ≠ k := by
        intro he
        exact h (by simp [he])
      have hr : dictLast rest k = none := ih (fun hm => h (by simp [hm]))
      simp [dictLast, hr, hk]

/-- Claim C9: the dict literal binds each of the keys MI, SC, UN and BR exactly
twice, the later binding wins for lookup — `get_station_name` maps UN to
Unionville GO rather than Union Station and MI to Milliken GO rather than
Mimico GO — and any code bound nowhere in the literal comes back unchanged. -/
theorem station_shadowing (code : String)
    (hcode : code ∉ GO_STATIONS.map Prod.fst) :
    ((GO_STATIONS.map Prod.fst).count "MI" = 2 ∧
     (GO_STATIONS.map Prod.fst).count "SC" = 2 ∧
     (GO_STATIONS.map Prod.fst).count "UN" = 2 ∧
     (GO_STATIONS.map Prod.fst).count "BR" = 2) ∧
    get_station_name "UN" = "Unionville GO" ∧
    get_station_name "UN" ≠ "Union Station" ∧
    get_station_name "MI" = "Milliken GO" ∧
    get_station_name "MI" ≠ "Mimico GO" ∧
    get_station_name code = code := by
  refine ⟨by decide, by decide, by decide, by decide, by decide, ?_⟩
  simp [get_station_name, dictLast_eq_none GO_STATIONS code hcode]

/-- Claim C9 at a concrete unknown code: ZZ is not bound, so it comes back as is. -/
theorem station_shadowing_witness :
    ((GO_STATIONS.map Prod.fst).count "MI" = 2 ∧
     (GO_STATIONS.map Prod.fst).count "SC" = 2 ∧
     (GO_STATIONS.map Prod.fst).count "UN" = 2 ∧
     (GO_STATIONS.map Prod.fst).count "BR" = 2) ∧
    get_station_name "UN" = "Unionville GO" ∧
    get_station_name "UN" ≠ "Union Station" ∧
    get_station_name "MI" = "Milliken GO" ∧
    get_station_name "MI" ≠ "Mimico GO" ∧
    get_station_name "ZZ" = "ZZ" :=
  station_shadowing "ZZ" (by decide)

end GoTransit
